import Mathlib

/-!
Shallow embedding of the euystacio monitoring-and-response core
(`euystacio_core.py`, `euystacio_audit_log.py`, `euystacio_helmi_guardian.py`,
`euystacio_response.py`) and proofs about it.

Modelling conventions, used throughout:
* Python dict values are modelled by the `Value` inductive (numbers as `ℚ`,
  strings, booleans).  Floats appearing in the claims (0.5, 5.0, 0.3, 0.7, 1.0)
  are exactly representable, so `ℚ` is faithful for them.
* The kernel state dict is an association list `List (String × Value)` in
  insertion order, mirroring Python dict semantics (`key in state`, in-place
  assignment of an existing key, iteration in insertion order).
* `hashlib.sha256(...).hexdigest()` over a canonical serialization is
  abstracted as a function parameter `H`; theorems quantify over `H`, while
  closed evaluations pick a concrete `H`.  Nothing below depends on any
  property of SHA-256 except (where explicitly hypothesised) that two
  concrete, distinct serializations hash differently.
* Side effects (audit-log appends, alerts, safe-mode update attempts) are
  modelled as emitted values: each operation returns the list of `log_event`
  calls / `Action`s it performs, in order.
* Wall-clock readings (`time.time()`, `datetime.utcnow().isoformat()`) are
  passed in explicitly as `now : ℚ` / `nowIso : String` parameters.
-/

namespace Euystacio

/-- Model of a Python/JSON scalar value stored in the kernel-state dict. -/
inductive Value where
  | num (q : ℚ)
  | str (s : String)
  | bool (b : Bool)
deriving DecidableEq

/-- Dict lookup on an association list (Python `d[k]` / `k in d`). -/
def lookupKey (k : String) : List (String × Value) → Option Value
  | [] => none
  | (k', v) :: tl => if k' = k then some v else lookupKey k tl

/-- In-place assignment of an existing key (`d[k] = v`); a key not present is
left untouched (the source only assigns keys already present in the state). -/
def setVal (k : String) (v : Value) : List (String × Value) → List (String × Value)
  | [] => []
  | (k', v') :: tl => if k' = k then (k', v) :: tl else (k', v') :: setVal k v tl

/-- Python truthiness of `d.get(k)` style reads (`None`, `False`, `0`, `""`
are falsy). -/
def truthy : Option Value → Bool
  | none => false
  | some (.bool b) => b
  | some (.num q) => if q = 0 then false else true
  | some (.str s) => if s = "" then false else true

/-- Numeric read with default (`state.get(k, d)`); `bool` counts as a number
because Python `bool` is a subclass of `int`.  A string value would raise in
the Python arithmetic that consumes this read; no claim exercises that case,
so the default is returned there. -/
def getNumD (st : List (String × Value)) (k : String) (d : ℚ) : ℚ :=
  match lookupKey k st with
  | some (.num q) => q
  | some (.bool b) => if b then 1 else 0
  | some (.str _) => d
  | none => d

/-- String read with default (`state.get(k, d)` where the consumer compares
against string constants; a non-string value never equals them). -/
def getStrD (st : List (String × Value)) (k : String) (d : String) : String :=
  match lookupKey k st with
  | some (.str s) => s
  | some _ => ""
  | none => d

/-- Raw `dict.get` with an explicit default value. -/
def getValD (st : List (String × Value)) (k : String) (d : Value) : Value :=
  (lookupKey k st).getD d

/-! ## `euystacio_core.EuystacioKernelState` -/

/-- Valid emotions (`_validate_state_change`). -/
def validEmotions : List String := ["Love", "Anger", "Calm", "Joy", "Fear", "Neutral"]

/-- Valid contexts (`_validate_state_change`). -/
def validContexts : List String := ["Calm", "Tense", "Crisis", "Peaceful", "Uncertain"]

/-- Valid alert levels (`_validate_state_change`). -/
def validAlertLevels : List String := ["normal", "warning", "critical", "emergency"]

/-- Checks `isinstance(v, (int, float))`; in Python `bool` passes this check. -/
def isNumLike : Value → Bool
  | .num _ => true
  | .bool _ => true
  | .str _ => false

/-- Numeric content of a num-like value (`True == 1`, `False == 0`). -/
def numVal : Value → ℚ
  | .num q => q
  | .bool b => if b then 1 else 0
  | .str _ => 0

/-- Per-field validator `EuystacioKernelState._validate_state_change` (the
`old_value` argument of the source is unused by every branch and omitted). -/
def validate_state_change (key : String) (newValue : Value) : Bool :=
  if key = "trust" ∨ key = "harmony" then
    isNumLike newValue && decide (0 ≤ numVal newValue) && decide (numVal newValue ≤ 1)
  else if key = "emotion" then
    match newValue with
    | .str s => validEmotions.contains s
    | _ => false
  else if key = "context" then
    match newValue with
    | .str s => validContexts.contains s
    | _ => false
  else if key = "safe_mode" then
    match newValue with
    | .bool _ => true
    | _ => false
  else if key = "alert_level" then
    match newValue with
    | .str s => validAlertLevels.contains s
    | _ => false
  else true

/-- One `log_event(event_type, data, security_level)` call emitted by the
core/response code; `log_event`'s `security_level` defaults to "normal".
Only the payload entries relevant to the claims are retained, in source
order. -/
structure LogCall where
  etype : String
  security_level : String
  info : List (String × Value)
deriving DecidableEq

/-- Kernel state record: the mutable `state` dict, the `state_history` list
(each element `{timestamp, previous_state, updates, source}`), and the stored
`integrity_hash`. -/
structure Kernel where
  state : List (String × Value)
  history : List (String × List (String × Value) × List (String × Value) × String)
  integrity_hash : String
deriving DecidableEq

/-- Initial `state` dict built by `EuystacioKernelState.__init__`. -/
def initStateList (ts : String) (hb : ℚ) : List (String × Value) :=
  [("trust", .num 1), ("harmony", .num 1), ("emotion", .str "Calm"),
   ("context", .str "Calm"), ("last_updated", .str ts), ("heartbeat", .num hb),
   ("safe_mode", .bool false), ("alert_level", .str "normal")]

/-- `EuystacioKernelState.__init__` given the hash function and the clock. -/
def initKernel (H : List (String × Value) → String) (ts : String) (hb : ℚ) : Kernel :=
  { state := initStateList ts hb, history := [], integrity_hash := H (initStateList ts hb) }

/-- `EuystacioKernelState.verify_integrity`. -/
def verify_integrity (H : List (String × Value) → String) (k : Kernel) : Bool :=
  decide (H k.state = k.integrity_hash)

/-- The `for key, value in updates.items()` loop of `update_state`: validated
keys are assigned into the state one at a time; the first validation failure
logs the rejection (old value taken from the pre-loop snapshot) and returns
`false` with the state as mutated so far.  Keys absent from the state are
skipped. -/
def applyUpdates (source : String) (snapshot : List (String × Value)) :
    List (String × Value) → List (String × Value) →
    Bool × List (String × Value) × List LogCall
  | st, [] => (true, st, [])
  | st, (k, v) :: rest =>
    match lookupKey k st with
    | none => applyUpdates source snapshot st rest
    | some _ =>
      if validate_state_change k v then
        applyUpdates source snapshot (setVal k v st) rest
      else
        (false, st,
          [{ etype := "kernel_state", security_level := "normal",
             info := [("error", .str "Invalid state change rejected"),
                      ("key", .str k),
                      ("old_value", getValD snapshot k (.str "")),
                      ("new_value", v),
                      ("source", .str source)] }])

/-- `EuystacioKernelState.update_state`.  Returns the boolean result, the
kernel after the call, and the `log_event` calls made, in order. -/
def update_state (H : List (String × Value) → String) (k : Kernel)
    (updates : List (String × Value)) (source nowIso : String) (now : ℚ) :
    Bool × Kernel × List LogCall :=
  if verify_integrity H k then
    let snapshot := k.state
    match applyUpdates source snapshot k.state updates with
    | (false, st', logs) => (false, { k with state := st' }, logs)
    | (true, st', _) =>
      let st2 := setVal "heartbeat" (.num now) (setVal "last_updated" (.str nowIso) st')
      let newHash := H st2
      (true,
       { state := st2,
         history := k.history ++ [(nowIso, snapshot, updates, source)],
         integrity_hash := newHash },
       [{ etype := "kernel_state", security_level := "normal",
          info := [("action", .str "state_updated"), ("source", .str source),
                   ("new_hash", .str newHash)] }])
  else
    (false, k,
      [{ etype := "kernel_state", security_level := "normal",
         info := [("error", .str "State integrity compromised before update"),
                  ("source", .str source)] }])

/-- `EuystacioKernelState.get_state_copy`: on an integrity mismatch the read
logs the condition (at `log_event`'s default security level "normal") and
returns the empty dict. -/
def get_state_copy (H : List (String × Value) → String) (k : Kernel) :
    List (String × Value) × List LogCall :=
  if verify_integrity H k then (k.state, [])
  else
    ([],
     [{ etype := "kernel_state", security_level := "normal",
        info := [("error", .str "State integrity compromised during read")] }])

/-! ## `euystacio_response` : safe mode, quarantine, alerts -/

/-- Observable side effects of the response/guardian layer, in call order.
`safeModeActivationCalled` marks that `activate_safe_mode` was invoked;
`dualValidated` marks a `DualValidationSystem.validate_decision` call with the
two validator outcomes. -/
inductive Action where
  | logged (c : LogCall)
  | alerted (message severity : String)
  | dualValidated (primary secondary : Bool)
  | safeModeActivationCalled
deriving DecidableEq

/-- `SafeModeManager.activate_safe_mode` (also the module-level
`activate_safe_mode`).  Reads the state through `get_state_copy`, returns
success immediately when `safe_mode` is already truthy, otherwise attempts
the `{'safe_mode': True, 'alert_level': 'critical'}` update; on success it
records the activation, logs it, and sends a critical alert.  The safe-mode
history bookkeeping is reflected by the emitted actions. -/
def activate_safe_mode (H : List (String × Value) → String) (k : Kernel)
    (reason triggered_by nowIso : String) (now : ℚ) :
    Bool × Kernel × List Action :=
  let readRes := get_state_copy H k
  let readActs := readRes.2.map Action.logged
  if truthy (lookupKey "safe_mode" readRes.1) then
    (true, k,
      Action.safeModeActivationCalled :: readActs ++
        [.logged { etype := "safe_mode", security_level := "normal",
                   info := [("action", .str "already_active"), ("reason", .str reason)] }])
  else
    let upd := update_state H k
      [("safe_mode", .bool true), ("alert_level", .str "critical")]
      ("safe_mode_activation_" ++ triggered_by) nowIso now
    let updActs := upd.2.2.map Action.logged
    if upd.1 then
      (true, upd.2.1,
        Action.safeModeActivationCalled :: readActs ++ updActs ++
          [.logged { etype := "safe_mode", security_level := "normal",
                     info := [("action", .str "activated"), ("reason", .str reason),
                              ("triggered_by", .str triggered_by)] },
           .alerted ("SAFE MODE ACTIVATED: " ++ reason) "critical"])
    else
      (false, upd.2.1, Action.safeModeActivationCalled :: readActs ++ updActs)

/-- Authorized users for safe-mode deactivation
(`SafeModeManager._verify_deactivation_authorization`). -/
def authorizedUsers : List String := ["admin", "guardian", "operator"]

/-- `SafeModeManager.deactivate_safe_mode`. -/
def deactivate_safe_mode (H : List (String × Value) → String) (k : Kernel)
    (authorized_by nowIso : String) (now : ℚ) :
    Bool × Kernel × List Action :=
  let readRes := get_state_copy H k
  let readActs := readRes.2.map Action.logged
  if ¬ truthy (lookupKey "safe_mode" readRes.1) then
    (true, k,
      readActs ++
        [.logged { etype := "safe_mode", security_level := "normal",
                   info := [("action", .str "not_active"),
                            ("authorized_by", .str authorized_by)] }])
  else if ¬ authorizedUsers.contains authorized_by then
    (false, k,
      readActs ++
        [.logged { etype := "safe_mode", security_level := "normal",
                   info := [("action", .str "deactivation_unauthorized"),
                            ("authorized_by", .str authorized_by)] },
         .alerted ("Unauthorized safe mode deactivation attempt by " ++ authorized_by)
           "warning"])
  else
    let upd := update_state H k
      [("safe_mode", .bool false), ("alert_level", .str "normal")]
      ("safe_mode_deactivation_" ++ authorized_by) nowIso now
    let updActs := upd.2.2.map Action.logged
    if upd.1 then
      (true, upd.2.1,
        readActs ++ updActs ++
          [.logged { etype := "safe_mode", security_level := "normal",
                     info := [("action", .str "deactivated"),
                              ("authorized_by", .str authorized_by)] },
           .alerted ("Safe mode deactivated by " ++ authorized_by) "info"])
    else
      (false, upd.2.1, readActs ++ updActs)

/-- `QuarantineRecord` held in `QuarantineManager.quarantined_inputs`. -/
structure QuarantineRecord where
  id : String
  timestamp : String
  data : List (String × Value)
  reason : String
  status : String
  released_by : Option String
  released_at : Option String
deriving DecidableEq

/-- `QuarantineManager.release_quarantine`: scans the records in order,
flips the first record with a matching id to `released` stamping releaser and
time, logs, and returns `True`; returns `False` when no record matches.  The
source performs no check on `authorized_by`. -/
def release_quarantine (quarantine_id authorized_by nowIso : String) :
    List QuarantineRecord → Bool × List QuarantineRecord × List Action
  | [] => (false, [], [])
  | r :: tl =>
    if r.id = quarantine_id then
      (true,
       { r with status := "released", released_by := some authorized_by,
                released_at := some nowIso } :: tl,
       [.logged { etype := "input_quarantine", security_level := "normal",
                  info := [("action", .str "quarantine_released"),
                           ("quarantine_id", .str quarantine_id),
                           ("authorized_by", .str authorized_by)] }])
    else
      let res := release_quarantine quarantine_id authorized_by nowIso tl
      (res.1, r :: res.2.1, res.2.2)

/-! ## `euystacio_helmi_guardian.WatchdogTimer` -/

/-- `get_kernel_heartbeat`: reads the raw `state` dict (not through
`get_state_copy`), defaulting to `0.0`. -/
def get_kernel_heartbeat (k : Kernel) : ℚ :=
  getNumD k.state "heartbeat" 0

/-- One pass of the `WatchdogTimer._monitor_heartbeat` loop body (timeout
defaults to 30 in `WatchdogTimer.__init__`): when the heartbeat is zero or
older than the timeout it logs, calls `activate_safe_mode` directly, and
sends a critical-severity alert; dual validation is never consulted. -/
def watchdogPass (H : List (String × Value) → String) (k : Kernel)
    (now : ℚ) (timeout : ℚ) (nowIso : String) : Kernel × List Action :=
  let hb := get_kernel_heartbeat k
  if hb = 0 ∨ now - hb > timeout then
    let act := activate_safe_mode H k "Watchdog timeout - kernel heartbeat lost"
      "watchdog" nowIso now
    (act.2.1,
      .logged { etype := "watchdog", security_level := "normal",
                info := [("alert", .str "heartbeat_timeout"),
                         ("last_heartbeat", .num hb),
                         ("timeout", .num timeout)] }
        :: act.2.2 ++
        [.alerted "WATCHDOG ALERT: Kernel heartbeat timeout detected" "critical"])
  else (k, [])

/-! ## `euystacio_helmi_guardian.DualValidationSystem` -/

/-- One record appended to `DualValidationSystem.validation_history`. -/
structure ValRecord where
  decision : List (String × Value)
  decision_type : String
  primary_result : Bool
  secondary_result : Bool
  final_result : Bool
deriving DecidableEq

/-- `DualValidationSystem._primary_validator`.  The current kernel state is
read through `get_current_state` (= `get_state_copy`). -/
def primaryValidator (H : List (String × Value) → String) (k : Kernel)
    (decision : List (String × Value)) (decision_type : String) : Bool :=
  if decision_type = "kill_switch_activation" then
    let cs := (get_state_copy H k).1
    decide (getNumD cs "trust" 1 < 3/10) && decide (getNumD cs "harmony" 1 < 3/10)
  else if decision_type = "safe_mode_activation" then
    match lookupKey "threat_level" decision with
    | some (.str s) => s = "severe" || s = "critical"
    | _ => false
  else true

/-- `DualValidationSystem._secondary_validator`.  For safe-mode activation it
passes when the history is empty or one of the last five records carries
decision type `anomaly_detected`. -/
def secondaryValidator (H : List (String × Value) → String) (k : Kernel)
    (hist : List ValRecord) (decision_type : String) : Bool :=
  if decision_type = "kill_switch_activation" then
    let cs := (get_state_copy H k).1
    let al := getStrD cs "alert_level" "normal"
    al = "critical" || al = "emergency"
  else if decision_type = "safe_mode_activation" then
    decide (hist = []) ||
      (hist.drop (hist.length - 5)).any (fun v => v.decision_type = "anomaly_detected")
  else true

/-- `DualValidationSystem.validate_decision`: evaluates both validators,
appends the record carrying both outcomes to the history, logs both outcomes,
and returns the conjunction. -/
def validate_decision (H : List (String × Value) → String) (k : Kernel)
    (hist : List ValRecord) (decision : List (String × Value))
    (decision_type : String) : Bool × List ValRecord × List Action :=
  let p := primaryValidator H k decision decision_type
  let s := secondaryValidator H k hist decision_type
  let passed := p && s
  (passed,
   hist ++ [{ decision := decision, decision_type := decision_type,
              primary_result := p, secondary_result := s, final_result := passed }],
   [.dualValidated p s,
    .logged { etype := "dual_validation", security_level := "normal",
              info := [("decision_type", .str decision_type),
                       ("primary_result", .bool p),
                       ("secondary_result", .bool s),
                       ("validation_passed", .bool passed)] }])

/-- One detected anomaly (`{'type': ..., 'severity': ..., 'details': ...}`);
the `details` payload is carried opaquely and omitted here since no claim
reads it. -/
structure Threat where
  ttype : String
  severity : String
deriving DecidableEq

/-- `EuystacioHelmiGuardian.initiate_response`: for `critical` and `severe`
threat levels, safe mode is activated only when `validate_decision` passes
for decision `{'threat_level': level, 'threats': threats}` (of which only
`threat_level` is ever read by a validator; `threats` is carried as its
count); `moderate` sends a warning alert only.  Returns the kernel after the
call, the dual-validation history after the call, and the actions taken. -/
def initiate_response (H : List (String × Value) → String) (k : Kernel)
    (hist : List ValRecord) (threat_level : String) (threats : List Threat)
    (nowIso : String) (now : ℚ) : Kernel × List ValRecord × List Action :=
  let n := toString threats.length
  let decision : List (String × Value) :=
    [("threat_level", .str threat_level), ("threats", .num threats.length)]
  let responseLog : List Action :=
    [.logged { etype := "threat_response", security_level := "normal",
               info := [("threat_level", .str threat_level),
                        ("threat_count", .num threats.length)] }]
  if threat_level = "critical" then
    let v := validate_decision H k hist decision "safe_mode_activation"
    if v.1 then
      let act := activate_safe_mode H k
        ("Critical threats detected: " ++ n ++ " issues") "guardian" nowIso now
      (act.2.1, v.2.1,
        v.2.2 ++ act.2.2 ++
          [.alerted ("CRITICAL: Guardian detected " ++ n ++ " critical threats") "emergency"]
          ++ responseLog)
    else (k, v.2.1, v.2.2 ++ responseLog)
  else if threat_level = "severe" then
    let v := validate_decision H k hist decision "safe_mode_activation"
    if v.1 then
      let act := activate_safe_mode H k
        ("Severe threats detected: " ++ n ++ " issues") "guardian" nowIso now
      (act.2.1, v.2.1,
        v.2.2 ++ act.2.2 ++
          [.alerted "SEVERE: Guardian activated safe mode due to threats" "critical"]
          ++ responseLog)
    else (k, v.2.1, v.2.2 ++ responseLog)
  else if threat_level = "moderate" then
    (k, hist,
      [.alerted ("MODERATE: Guardian detected " ++ n ++ " threats") "warning"] ++ responseLog)
  else (k, hist, responseLog)

/-! ## Anomaly detectors and threat aggregation
(`EuystacioHelmiGuardian.monitor` / `_process_threats`) -/

/-- `_detect_trust_anomaly`: baseline trust 1.0, `anomaly_threshold` 0.5
(`EuystacioHelmiGuardian.__init__` / `_establish_baseline`). -/
def detectTrustAnomaly (st : List (String × Value)) : Option Threat :=
  let deviation := |getNumD st "trust" 1 - 1|
  if deviation > 1/2 then
    some { ttype := "trust_anomaly",
           severity := if deviation > 7/10 then "high" else "medium" }
  else none

/-- `_detect_harmony_anomaly`: baseline harmony 1.0, threshold 0.5. -/
def detectHarmonyAnomaly (st : List (String × Value)) : Option Threat :=
  let deviation := |getNumD st "harmony" 1 - 1|
  if deviation > 1/2 then
    some { ttype := "harmony_anomaly",
           severity := if deviation > 7/10 then "high" else "medium" }
  else none

/-- Contradictory emotion/context pairs of `_detect_emotional_anomaly`. -/
def anomalousPairs : List (Value × Value) :=
  [(.str "Anger", .str "Calm"), (.str "Fear", .str "Peaceful"), (.str "Love", .str "Crisis")]

/-- `_detect_emotional_anomaly`. -/
def detectEmotionalAnomaly (st : List (String × Value)) : Option Threat :=
  let e := getValD st "emotion" (.str "Calm")
  let c := getValD st "context" (.str "Calm")
  if anomalousPairs.contains (e, c) then
    some { ttype := "emotional_anomaly", severity := "medium" }
  else none

/-- `_analyze_behavior_patterns`.  The anomaly history is modelled by the
ages, in whole seconds and in chronological (oldest-first) order, of its
entries; Python `history[-5:]` is the last five.  The source's recency test
is `(datetime.utcnow() - timestamp).seconds < 300`, and `timedelta.seconds`
of a non-negative whole-second delta is the age modulo 86400 (the day part is
dropped, not converted). -/
def analyzeBehaviorPatterns (histAges : List ℕ) : Option Threat :=
  if 5 ≤ histAges.length then
    if 3 ≤ ((histAges.drop (histAges.length - 5)).filter (fun a => a % 86400 < 300)).length then
      some { ttype := "pattern_anomaly", severity := "high" }
    else none
  else none

/-- `_verify_state_integrity`: `trust < 0.3` and `harmony < 0.3` with safe
mode off is a critical inconsistency. -/
def verifyStateIntegrityAnomaly (st : List (String × Value)) : Option Threat :=
  if getNumD st "trust" 1 < 3/10 ∧ getNumD st "harmony" 1 < 3/10 ∧
      truthy (lookupKey "safe_mode" st) = false then
    some { ttype := "integrity_anomaly", severity := "critical" }
  else none

/-- The threat-indicator list assembled by one `monitor` scan pass, in source
order: trust, harmony, emotional, behavioral-pattern, state-integrity. -/
def collectIndicators (st : List (String × Value)) (histAges : List ℕ) : List Threat :=
  (detectTrustAnomaly st).toList ++ (detectHarmonyAnomaly st).toList ++
    (detectEmotionalAnomaly st).toList ++ (analyzeBehaviorPatterns histAges).toList ++
    (verifyStateIntegrityAnomaly st).toList

/-- Response-level decision of `_process_threats`: threats are partitioned by
severity and the level picked by the source's cascade; `none` is the final
branch that only logs the threats and dispatches no response. -/
def processThreatsLevel (threats : List Threat) : Option String :=
  let critical_threats := threats.filter (fun t => t.severity = "critical")
  let high_threats := threats.filter (fun t => t.severity = "high")
  let medium_threats := threats.filter (fun t => t.severity = "medium")
  if critical_threats ≠ [] then some "critical"
  else if 2 ≤ high_threats.length ∨ (1 ≤ high_threats.length ∧ 2 ≤ medium_threats.length) then
    some "severe"
  else if high_threats ≠ [] ∨ 3 ≤ medium_threats.length then some "moderate"
  else none

/-- Response-level cascade exactly as the claim C7 words it (spec-side
definition, to be compared with `processThreatsLevel`): any critical →
critical; else ≥2 high, or ≥1 high and ≥2 medium → severe; else any high or
≥3 medium → moderate; else log-only. -/
def claimResponseLevel (threats : List Threat) : Option String :=
  if threats.any (fun t => t.severity = "critical") then some "critical"
  else if 2 ≤ (threats.countP (fun t => t.severity = "high")) ∨
      (1 ≤ threats.countP (fun t => t.severity = "high") ∧
       2 ≤ threats.countP (fun t => t.severity = "medium")) then some "severe"
  else if threats.any (fun t => t.severity = "high") ∨
      3 ≤ threats.countP (fun t => t.severity = "medium") then some "moderate"
  else none

/-! ## `euystacio_audit_log.ImmutableAuditLogger`

On disk every entry is one JSON object per line; the model works on the
parsed entries.  `json.dumps(entry_for_hash, sort_keys=True)` serializes the
entry minus its `entry_hash` key with keys in sorted order
(`data`, `previous_hash`, `security_level`, `sequence`, `timestamp`, `type`);
the genesis entry written by `_initialize_log_file` has no `security_level`
key.  `data` payloads are carried as their JSON text.  Log rotation
(`_rotate_logs`, file renaming every 1000 entries) is file management and not
modelled; the entry list is the single active log file. -/

/-- One parsed audit-log entry. -/
structure Entry where
  timestamp : String
  etype : String
  data : String
  security_level : Option String
  sequence : ℕ
  previous_hash : String
  entry_hash : String
deriving DecidableEq

/-- Canonical serialization `json.dumps(entry \ \x7bentry_hash\x7d, sort_keys=True)`
(field strings are assumed to need no JSON escaping, which holds for every
string the source writes). -/
def canonicalEntry (e : Entry) : String :=
  "\x7b\"data\": " ++ e.data ++ ", \"previous_hash\": \"" ++ e.previous_hash ++ "\", " ++
    (match e.security_level with
     | some s => "\"security_level\": \"" ++ s ++ "\", "
     | none => "") ++
    "\"sequence\": " ++ toString e.sequence ++ ", \"timestamp\": \"" ++ e.timestamp ++
    "\", \"type\": \"" ++ e.etype ++ "\"\x7d"

/-- Data payload of the genesis entry written by `_initialize_log_file`
(nested dict, keys sorted by `sort_keys=True`). -/
def genesisDataStr : String :=
  "\x7b\"action\": \"audit_system_initialized\", \"security_level\": \"high\", \"version\": \"1.0.0\"\x7d"

/-- Logger state: the parsed entries of the active log file and the in-memory
`last_hash` chain head. -/
structure Logger where
  entries : List Entry
  last_hash : String
deriving DecidableEq

/-- `ImmutableAuditLogger.__init__` on a fresh log file: the chain head is
initialized to `H("GENESIS_BLOCK")` and `_initialize_log_file` writes the
genesis entry (type `system_initialization`, sequence 0, no `security_level`
key) hashed over its canonical serialization. -/
def initLogger (H : String → String) (ts : String) : Logger :=
  let genesisHash := H "GENESIS_BLOCK"
  let core : Entry :=
    { timestamp := ts, etype := "system_initialization", data := genesisDataStr,
      security_level := none, sequence := 0, previous_hash := genesisHash,
      entry_hash := "" }
  let h := H (canonicalEntry core)
  { entries := [{ core with entry_hash := h }], last_hash := h }

/-- `_get_next_sequence`: last entry's sequence plus one, or 0 on an empty
log. -/
def nextSequence (entries : List Entry) : ℕ :=
  match entries.getLast? with
  | some e => e.sequence + 1
  | none => 0

/-- Arguments of one `log_event` call. -/
structure Ev where
  ts : String
  etype : String
  data : String
  sec : String
deriving DecidableEq

/-- `ImmutableAuditLogger.log_event`: builds the next entry chained to
`last_hash`, hashes its canonical serialization with the `entry_hash` key
removed, appends it, and advances the chain head. -/
def log_event (H : String → String) (lg : Logger) (ev : Ev) : Logger × String :=
  let core : Entry :=
    { timestamp := ev.ts, etype := ev.etype, data := ev.data,
      security_level := some ev.sec, sequence := nextSequence lg.entries,
      previous_hash := lg.last_hash, entry_hash := "" }
  let h := H (canonicalEntry core)
  ({ entries := lg.entries ++ [{ core with entry_hash := h }], last_hash := h }, h)

/-- A log produced by a sequence of `log_event` appends after
initialization. -/
def buildLog (H : String → String) (ts0 : String) (events : List Ev) : Logger :=
  events.foldl (fun lg ev => (log_event H lg ev).1) (initLogger H ts0)

/-- One issue collected by `verify_integrity_chain` (`expected`/`calculated`
detail fields omitted; `sequence` is the entry's own sequence field). -/
structure Issue where
  sequence : ℕ
  issue : String
deriving DecidableEq

/-- Self-consistency check of one entry: recomputed hash versus stored
`entry_hash`. -/
def entryIssues (H : String → String) (e : Entry) : List Issue :=
  if e.entry_hash = H (canonicalEntry e) then []
  else [{ sequence := e.sequence, issue := "hash_mismatch" }]

/-- Linkage check of one entry against its predecessor. -/
def linkIssues (prev e : Entry) : List Issue :=
  if e.previous_hash = prev.entry_hash then []
  else [{ sequence := e.sequence, issue := "chain_break" }]

/-- The issue-collection walk of `verify_integrity_chain`: per entry, first
the hash check, then (from the second entry on) the linkage check. -/
def chainIssues (H : String → String) : Option Entry → List Entry → List Issue
  | _, [] => []
  | none, e :: tl => entryIssues H e ++ chainIssues H (some e) tl
  | some p, e :: tl => entryIssues H e ++ linkIssues p e ++ chainIssues H (some e) tl

/-- `ImmutableAuditLogger.verify_integrity_chain` (status and issue list). -/
def verify_integrity_chain (H : String → String) (entries : List Entry) :
    String × List Issue :=
  if entries = [] then ("empty", [])
  else
    let issues := chainIssues H none entries
    (if issues = [] then "verified" else "compromised", issues)

/-! ## Helper lemmas -/

/-- Looking a key up after an in-place assignment: the assigned key reads the
new value when it was present, every other key is untouched. -/
theorem lookupKey_setVal (k k' : String) (v : Value) (st : List (String × Value)) :
    lookupKey k (setVal k' v st) =
      if k' = k then (lookupKey k st).map (fun _ => v) else lookupKey k st := by
  induction st with
  | nil => by_cases h : k' = k <;> simp [lookupKey, setVal, h]
  | cons hd tl ih =>
    obtain ⟨a, b⟩ := hd
    by_cases h1 : a = k'
    · subst h1
      by_cases h2 : a = k
      · subst h2
        simp [lookupKey, setVal]
      · simp [lookupKey, setVal, h2]
    · by_cases h3 : a = k
      · subst h3
        have h2 : ¬ k' = a := fun h => h1 h.symm
        simp [lookupKey, setVal, h1, h2]
      · simp [lookupKey, setVal, h1, h3, ih]

/-- The float `0.5` as a rational in constructor-literal form (Mathlib's
division on `ℚ` does not reduce inside the kernel, so closed evaluations use
this form). -/
def half : ℚ := ⟨1, 2, by decide, Nat.coprime_one_left 2⟩

/-- Certification that `half` is the rational one half. -/
theorem half_eq_one_div_two : half = 1 / 2 := by
  rw [← Rat.num_div_den half]
  norm_num [half]

/-! ## Claims about the kernel state and the response layer -/

/-- C1 (the claim is the spec's all-or-nothing update requirement; the code
violates it): from the pristine initial state, `update_state` with
`{trust: 0.5, harmony: 5.0}` returns rejection and logs the rejected field
with old/new values and source — but `trust` has already been assigned
`0.5`, so the state ends at `{trust: 0.5, harmony: 1.0}`, exactly the partial
application the claim rules out. -/
theorem c1_update_not_all_or_nothing :
    (update_state (fun _ => "h") (initKernel (fun _ => "h") "t0" 0)
        [("trust", .num half), ("harmony", .num 5)] "test" "t1" 1).1 = false ∧
    lookupKey "trust"
        (update_state (fun _ => "h") (initKernel (fun _ => "h") "t0" 0)
          [("trust", .num half), ("harmony", .num 5)] "test" "t1" 1).2.1.state
      = some (.num half) ∧
    lookupKey "harmony"
        (update_state (fun _ => "h") (initKernel (fun _ => "h") "t0" 0)
          [("trust", .num half), ("harmony", .num 5)] "test" "t1" 1).2.1.state
      = some (.num 1) ∧
    (update_state (fun _ => "h") (initKernel (fun _ => "h") "t0" 0)
        [("trust", .num half), ("harmony", .num 5)] "test" "t1" 1).2.2
      = [{ etype := "kernel_state", security_level := "normal",
           info := [("error", .str "Invalid state change rejected"),
                    ("key", .str "harmony"),
                    ("old_value", .num 1),
                    ("new_value", .num 5),
                    ("source", .str "test")] }] := by
  decide

/-- C5, counterexample: on a kernel whose stored `integrity_hash` does not
match the recomputed hash, the read returns the empty dict — not the state
data, which is nonempty — and the only event logged carries `log_event`'s
default "normal" security level, not "critical". -/
theorem c5_corrupted_read_returns_no_data :
    (get_state_copy (fun _ => "h")
        { initKernel (fun _ => "h") "t0" 0 with integrity_hash := "tampered" }).1 = [] ∧
    { initKernel (fun _ => "h") "t0" 0 with integrity_hash := "tampered" }.state ≠ [] ∧
    ((get_state_copy (fun _ => "h")
        { initKernel (fun _ => "h") "t0" 0 with integrity_hash := "tampered" }).2.all
      (fun c => c.security_level = "normal")) = true := by
  decide

/-- C5, amended: on any read under a stored/recomputed integrity-hash
mismatch, `get_state_copy` returns the empty dict (no state data) and logs
the `StateCorrupted` condition once, at the default "normal" security
level. -/
theorem c5_corrupted_read_amended (H : List (String × Value) → String) (k : Kernel)
    (h : verify_integrity H k = false) :
    get_state_copy H k =
      ([], [{ etype := "kernel_state", security_level := "normal",
              info := [("error", .str "State integrity compromised during read")] }]) := by
  unfold get_state_copy
  rw [h]
  simp

/-- Witness for `c5_corrupted_read_amended` at a concrete corrupted kernel. -/
theorem c5_corrupted_read_amended_witness :
    verify_integrity (fun _ => "h")
        { initKernel (fun _ => "h") "t0" 0 with integrity_hash := "tampered" } = false ∧
    get_state_copy (fun _ => "h")
        { initKernel (fun _ => "h") "t0" 0 with integrity_hash := "tampered" } =
      ([], [{ etype := "kernel_state", security_level := "normal",
              info := [("error", .str "State integrity compromised during read")] }]) :=
  ⟨by decide,
   c5_corrupted_read_amended (fun _ => "h")
     { initKernel (fun _ => "h") "t0" 0 with integrity_hash := "tampered" } (by decide)⟩

/-- C6: while the stored integrity hash mismatches the recomputed one, every
`activate_safe_mode` call fails and leaves the kernel — in particular
`safe_mode` — unchanged: the pre-update integrity check inside `update_state`
rejects the safe-mode update. -/
theorem c6_safe_mode_blocked_on_corruption (H : List (String × Value) → String)
    (k : Kernel) (reason triggered_by nowIso : String) (now : ℚ)
    (h : verify_integrity H k = false) :
    (activate_safe_mode H k reason triggered_by nowIso now).1 = false ∧
    (activate_safe_mode H k reason triggered_by nowIso now).2.1 = k := by
  unfold activate_safe_mode get_state_copy update_state
  rw [h]
  simp [truthy, lookupKey]

/-- Witness for `c6_safe_mode_blocked_on_corruption` at a concrete corrupted
kernel. -/
theorem c6_safe_mode_blocked_on_corruption_witness :
    verify_integrity (fun _ => "h")
        { initKernel (fun _ => "h") "t0" 0 with integrity_hash := "tampered" } = false ∧
    (activate_safe_mode (fun _ => "h")
        { initKernel (fun _ => "h") "t0" 0 with integrity_hash := "tampered" }
        "reason" "guardian" "t1" 1).1 = false ∧
    (activate_safe_mode (fun _ => "h")
        { initKernel (fun _ => "h") "t0" 0 with integrity_hash := "tampered" }
        "reason" "guardian" "t1" 1).2.1 =
      { initKernel (fun _ => "h") "t0" 0 with integrity_hash := "tampered" } :=
  ⟨by decide,
   (c6_safe_mode_blocked_on_corruption (fun _ => "h")
     { initKernel (fun _ => "h") "t0" 0 with integrity_hash := "tampered" }
     "reason" "guardian" "t1" 1 (by decide)).1,
   (c6_safe_mode_blocked_on_corruption (fun _ => "h")
     { initKernel (fun _ => "h") "t0" 0 with integrity_hash := "tampered" }
     "reason" "guardian" "t1" 1 (by decide)).2⟩

/-- C10 (the claim matches `release_quarantine`'s own docstring, "release
quarantined input if authorized", but the code never checks the caller): a
release request by "mallory", who is not in the authorized set, succeeds —
it returns `True`, flips the record's status to `released`, stamps "mallory"
as the releaser, and raises no alert. -/
theorem c10_release_quarantine_unauthed_eval :
    ("mallory" ∈ authorizedUsers → False) ∧
    (release_quarantine "q_1" "mallory" "t1"
        [{ id := "q_1", timestamp := "t0", data := [], reason := "suspicious",
           status := "quarantined", released_by := none, released_at := none }]).1 = true ∧
    (release_quarantine "q_1" "mallory" "t1"
        [{ id := "q_1", timestamp := "t0", data := [], reason := "suspicious",
           status := "quarantined", released_by := none, released_at := none }]).2.1 =
      [{ id := "q_1", timestamp := "t0", data := [], reason := "suspicious",
         status := "released", released_by := some "mallory", released_at := some "t1" }] ∧
    ((release_quarantine "q_1" "mallory" "t1"
        [{ id := "q_1", timestamp := "t0", data := [], reason := "suspicious",
           status := "quarantined", released_by := none, released_at := none }]).2.2.all
      (fun a => match a with
        | .alerted _ _ => false
        | _ => true)) = true := by
  decide

/-- On a kernel that passes the integrity check and is not in safe mode, the
safe-mode update inside `activate_safe_mode` succeeds and flips `safe_mode`
to true. -/
theorem update_state_sets_safe_mode (H : List (String × Value) → String) (k : Kernel)
    (src nowIso : String) (now : ℚ)
    (hv : verify_integrity H k = true)
    (hsm : lookupKey "safe_mode" k.state = some (Value.bool false)) :
    (update_state H k [("safe_mode", .bool true), ("alert_level", .str "critical")]
        src nowIso now).1 = true ∧
    lookupKey "safe_mode"
        (update_state H k [("safe_mode", .bool true), ("alert_level", .str "critical")]
          src nowIso now).2.1.state = some (.bool true) := by
  have hval1 : validate_state_change "safe_mode" (Value.bool true) = true := by decide
  have hval2 : validate_state_change "alert_level" (Value.str "critical") = true := by decide
  have hal : lookupKey "alert_level" (setVal "safe_mode" (.bool true) k.state) =
      lookupKey "alert_level" k.state := by
    rw [lookupKey_setVal]
    simp
  unfold update_state applyUpdates
  rcases halv : lookupKey "alert_level" k.state with _ | v <;>
    simp only [hv, if_true, hsm, hal, halv, hval1, hval2, if_false, applyUpdates] <;>
    simp [lookupKey_setVal, hsm]

/-- Every branch of `activate_safe_mode` emits the marker that the activation
entry point was invoked. -/
theorem activate_safe_mode_called (H : List (String × Value) → String) (k : Kernel)
    (reason triggered_by nowIso : String) (now : ℚ) :
    Action.safeModeActivationCalled ∈
      (activate_safe_mode H k reason triggered_by nowIso now).2.2 := by
  unfold activate_safe_mode
  by_cases h1 : truthy (lookupKey "safe_mode" (get_state_copy H k).1)
  · simp [h1]
  · by_cases h2 : (update_state H k [("safe_mode", .bool true), ("alert_level", .str "critical")]
        ("safe_mode_activation_" ++ triggered_by) nowIso now).1
    · simp [h1, h2]
    · simp [h1, h2]

/-- `activate_safe_mode` never consults the dual-validation system. -/
theorem activate_safe_mode_no_dual (H : List (String × Value) → String) (k : Kernel)
    (reason triggered_by nowIso : String) (now : ℚ) (p s : Bool) :
    Action.dualValidated p s ∉
      (activate_safe_mode H k reason triggered_by nowIso now).2.2 := by
  unfold activate_safe_mode
  by_cases h1 : truthy (lookupKey "safe_mode" (get_state_copy H k).1)
  · simp [h1]
  · by_cases h2 : (update_state H k [("safe_mode", .bool true), ("alert_level", .str "critical")]
        ("safe_mode_activation_" ++ triggered_by) nowIso now).1
    · simp [h1, h2]
    · simp [h1, h2]

/-- On a healthy kernel not in safe mode, `activate_safe_mode` ends with
`safe_mode = true`. -/
theorem activate_safe_mode_sets_flag (H : List (String × Value) → String) (k : Kernel)
    (reason triggered_by nowIso : String) (now : ℚ)
    (hv : verify_integrity H k = true)
    (hsm : lookupKey "safe_mode" k.state = some (Value.bool false)) :
    lookupKey "safe_mode"
      (activate_safe_mode H k reason triggered_by nowIso now).2.1.state
        = some (.bool true) := by
  have hread : get_state_copy H k = (k.state, []) := by
    unfold get_state_copy
    simp [hv]
  have hupd := update_state_sets_safe_mode H k
    ("safe_mode_activation_" ++ triggered_by) nowIso now hv hsm
  unfold activate_safe_mode
  rw [hread]
  simp only [hsm, truthy, if_false, Bool.false_eq_true, reduceIte, hupd.1, if_true]
  exact hupd.2

/-- C4, counterexample: one watchdog pass over a kernel whose heartbeat is
zero does fire (it calls `activate_safe_mode` and leaves the kernel in safe
mode), but every alert it dispatches has severity "critical" — no alert of
severity "emergency" is sent, contrary to the claim's "emergency alert". -/
theorem c4_no_emergency_severity_alert :
    get_kernel_heartbeat (initKernel (fun _ => "h") "t0" 0) = 0 ∧
    Action.safeModeActivationCalled ∈
      (watchdogPass (fun _ => "h") (initKernel (fun _ => "h") "t0" 0) 100 30 "t1").2 ∧
    lookupKey "safe_mode"
        (watchdogPass (fun _ => "h") (initKernel (fun _ => "h") "t0" 0) 100 30 "t1").1.state
      = some (.bool true) ∧
    ((watchdogPass (fun _ => "h") (initKernel (fun _ => "h") "t0" 0) 100 30 "t1").2.all
      (fun a => match a with
        | .alerted _ sev => decide (sev ≠ "emergency")
        | _ => true)) = true := by
  decide

/-- C4, amended (the claim with the alert severity corrected from
"emergency" to "critical"): whenever the heartbeat is zero or has not
advanced within the timeout window, one watchdog pass triggers
`activate_safe_mode` and a critical-severity alert without ever consulting
dual validation — and on an intact kernel not already in safe mode, safe
mode is indeed entered, independent of any dual-validation predicate. -/
theorem c4_watchdog_bypass (H : List (String × Value) → String) (k : Kernel)
    (now timeout : ℚ) (nowIso : String)
    (h : get_kernel_heartbeat k = 0 ∨ now - get_kernel_heartbeat k > timeout) :
    Action.safeModeActivationCalled ∈ (watchdogPass H k now timeout nowIso).2 ∧
    Action.alerted "WATCHDOG ALERT: Kernel heartbeat timeout detected" "critical"
      ∈ (watchdogPass H k now timeout nowIso).2 ∧
    (∀ p s, Action.dualValidated p s ∉ (watchdogPass H k now timeout nowIso).2) ∧
    (verify_integrity H k = true →
      lookupKey "safe_mode" k.state = some (.bool false) →
      lookupKey "safe_mode" (watchdogPass H k now timeout nowIso).1.state
        = some (.bool true)) := by
  unfold watchdogPass
  rw [if_pos h]
  refine ⟨?_, ?_, ?_, ?_⟩
  · simp [activate_safe_mode_called]
  · simp
  · intro p s hmem
    rcases List.mem_cons.mp hmem with h1 | hmem2
    · exact Action.noConfusion h1
    · rcases List.mem_append.mp hmem2 with h1 | h1
      · exact activate_safe_mode_no_dual H k
          "Watchdog timeout - kernel heartbeat lost" "watchdog" nowIso now p s h1
      · simp at h1
  · intro hv hsm
    exact activate_safe_mode_sets_flag H k
      "Watchdog timeout - kernel heartbeat lost" "watchdog" nowIso now hv hsm

/-- Witness for `c4_watchdog_bypass` at a zero heartbeat. -/
theorem c4_watchdog_bypass_witness :
    (get_kernel_heartbeat (initKernel (fun _ => "h") "t0" 0) = 0 ∨
      (100 : ℚ) - get_kernel_heartbeat (initKernel (fun _ => "h") "t0" 0) > 30) ∧
    (Action.safeModeActivationCalled ∈
        (watchdogPass (fun _ => "h") (initKernel (fun _ => "h") "t0" 0) 100 30 "t1").2 ∧
      Action.alerted "WATCHDOG ALERT: Kernel heartbeat timeout detected" "critical"
        ∈ (watchdogPass (fun _ => "h") (initKernel (fun _ => "h") "t0" 0) 100 30 "t1").2 ∧
      (∀ p s, Action.dualValidated p s ∉
        (watchdogPass (fun _ => "h") (initKernel (fun _ => "h") "t0" 0) 100 30 "t1").2) ∧
      (verify_integrity (fun _ => "h") (initKernel (fun _ => "h") "t0" 0) = true →
        lookupKey "safe_mode" (initKernel (fun _ => "h") "t0" 0).state = some (.bool false) →
        lookupKey "safe_mode"
          (watchdogPass (fun _ => "h") (initKernel (fun _ => "h") "t0" 0) 100 30 "t1").1.state
            = some (.bool true))) :=
  ⟨Or.inl (by decide),
   c4_watchdog_bypass (fun _ => "h") (initKernel (fun _ => "h") "t0" 0) 100 30 "t1"
     (Or.inl (by decide))⟩

/-- C3: a decision passes dual validation exactly when both the primary and
the secondary validator return true, the record appended to the validation
history and the `dual_validation` log entry carry both outcomes; and whenever
the primary predicate holds but the secondary fails for the safe-mode
decision built by the response dispatch, `initiate_response` performs no
state mutation and never invokes safe-mode activation. -/
theorem c3_dual_validation_gate :
    (∀ (H : List (String × Value) → String) (k : Kernel) (hist : List ValRecord)
        (decision : List (String × Value)) (dtype : String),
      (validate_decision H k hist decision dtype).1
          = (primaryValidator H k decision dtype && secondaryValidator H k hist dtype) ∧
      (validate_decision H k hist decision dtype).2.1
          = hist ++ [{ decision := decision, decision_type := dtype,
                       primary_result := primaryValidator H k decision dtype,
                       secondary_result := secondaryValidator H k hist dtype,
                       final_result := primaryValidator H k decision dtype &&
                         secondaryValidator H k hist dtype }] ∧
      Action.logged { etype := "dual_validation", security_level := "normal",
                      info := [("decision_type", .str dtype),
                               ("primary_result", .bool (primaryValidator H k decision dtype)),
                               ("secondary_result", .bool (secondaryValidator H k hist dtype)),
                               ("validation_passed", .bool (primaryValidator H k decision dtype &&
                                  secondaryValidator H k hist dtype))] }
        ∈ (validate_decision H k hist decision dtype).2.2) ∧
    (∀ (H : List (String × Value) → String) (k : Kernel) (hist : List ValRecord)
        (level : String) (threats : List Threat) (nowIso : String) (now : ℚ),
      primaryValidator H k
          [("threat_level", .str level), ("threats", .num threats.length)]
          "safe_mode_activation" = true →
      secondaryValidator H k hist "safe_mode_activation" = false →
      (initiate_response H k hist level threats nowIso now).1 = k ∧
      Action.safeModeActivationCalled ∉
        (initiate_response H k hist level threats nowIso now).2.2) := by
  constructor
  · intro H k hist decision dtype
    exact ⟨rfl, rfl, by simp [validate_decision]⟩
  · intro H k hist level threats nowIso now hp hs
    by_cases h1 : level = "critical"
    · subst h1
      constructor <;> simp [initiate_response, validate_decision, hp, hs]
    · by_cases h2 : level = "severe"
      · subst h2
        constructor <;> simp [initiate_response, validate_decision, hp, hs]
      · by_cases h3 : level = "moderate"
        · subst h3
          constructor <;> simp [initiate_response]
        · constructor <;> simp [initiate_response, h1, h2, h3]

/-- Witness for `c3_dual_validation_gate` at a concrete decision where the
primary predicate holds (declared threat level "severe") but the secondary
fails (nonempty validation history with no recent `anomaly_detected`). -/
theorem c3_dual_validation_gate_witness :
    primaryValidator (fun _ => "h") (initKernel (fun _ => "h") "t0" 0)
        [("threat_level", .str "severe"),
         ("threats", .num (List.length ([] : List Threat)))]
        "safe_mode_activation" = true ∧
    secondaryValidator (fun _ => "h") (initKernel (fun _ => "h") "t0" 0)
        [{ decision := [], decision_type := "safe_mode_activation",
           primary_result := true, secondary_result := true, final_result := true }]
        "safe_mode_activation" = false ∧
    ((initiate_response (fun _ => "h") (initKernel (fun _ => "h") "t0" 0)
        [{ decision := [], decision_type := "safe_mode_activation",
           primary_result := true, secondary_result := true, final_result := true }]
        "severe" [] "t1" 1).1 = initKernel (fun _ => "h") "t0" 0 ∧
      Action.safeModeActivationCalled ∉
        (initiate_response (fun _ => "h") (initKernel (fun _ => "h") "t0" 0)
          [{ decision := [], decision_type := "safe_mode_activation",
             primary_result := true, secondary_result := true, final_result := true }]
          "severe" [] "t1" 1).2.2) :=
  ⟨by decide, by decide,
   c3_dual_validation_gate.2 (fun _ => "h") (initKernel (fun _ => "h") "t0" 0)
     [{ decision := [], decision_type := "safe_mode_activation",
        primary_result := true, secondary_result := true, final_result := true }]
     "severe" [] "t1" 1 (by decide) (by decide)⟩

/-- C7: the response level computed by the `_process_threats` cascade agrees
with the claim's description on every possible set of collected anomalies:
any critical → critical; else (≥2 high) or (≥1 high and ≥2 medium) → severe;
else any high or ≥3 medium → moderate; else log-only (no response). -/
theorem c7_response_level_cascade (threats : List Threat) :
    processThreatsLevel threats = claimResponseLevel threats := by
  have hc : ∀ (p : Threat → Bool), (threats.any p = true) ↔ ¬ (threats.filter p = []) := by
    intro p
    simp [List.any_eq_true, List.filter_eq_nil_iff]
  unfold processThreatsLevel claimResponseLevel
  simp only [List.countP_eq_length_filter, hc, ne_eq]

/-- C8, counterexample: an anomaly history holding exactly three anomalies,
all of age zero — three anomalies within the trailing five minutes — yields
no pattern anomaly, because `_analyze_behavior_patterns` first requires the
history to hold at least five records. -/
theorem c8_three_recent_not_reported :
    3 ≤ (([0, 0, 0] : List ℕ).filter (fun a => a < 300)).length ∧
    analyzeBehaviorPatterns [0, 0, 0] = none := by
  decide

/-- C8, amended: whenever the anomaly history holds at least five records and
at least three of the latest five are younger than five minutes (age taken
modulo one day, as the source's `timedelta.seconds` does), the
behavioral-pattern detector reports a high-severity "pattern" anomaly, and
the scan pass's indicator list contains it in addition to — not replacing —
the outputs of the other detectors. -/
theorem c8_pattern_detector_amended (st : List (String × Value)) (histAges : List ℕ)
    (h5 : 5 ≤ histAges.length)
    (h3 : 3 ≤ ((histAges.drop (histAges.length - 5)).filter
        (fun a => a % 86400 < 300)).length) :
    analyzeBehaviorPatterns histAges
        = some { ttype := "pattern_anomaly", severity := "high" } ∧
    collectIndicators st histAges =
      (detectTrustAnomaly st).toList ++ (detectHarmonyAnomaly st).toList ++
        (detectEmotionalAnomaly st).toList ++
        ({ ttype := "pattern_anomaly", severity := "high" } ::
          (verifyStateIntegrityAnomaly st).toList) := by
  have ha : analyzeBehaviorPatterns histAges
      = some { ttype := "pattern_anomaly", severity := "high" } := by
    unfold analyzeBehaviorPatterns
    rw [if_pos h5, if_pos h3]
  refine ⟨ha, ?_⟩
  unfold collectIndicators
  rw [ha]
  simp

/-- Witness for `c8_pattern_detector_amended`: five anomalies of age zero
over the pristine initial state. -/
theorem c8_pattern_detector_amended_witness :
    5 ≤ ([0, 0, 0, 0, 0] : List ℕ).length ∧
    3 ≤ ((([0, 0, 0, 0, 0] : List ℕ).drop (([0, 0, 0, 0, 0] : List ℕ).length - 5)).filter
        (fun a => a % 86400 < 300)).length ∧
    (analyzeBehaviorPatterns [0, 0, 0, 0, 0]
        = some { ttype := "pattern_anomaly", severity := "high" } ∧
     collectIndicators (initStateList "t0" 0) [0, 0, 0, 0, 0] =
       (detectTrustAnomaly (initStateList "t0" 0)).toList ++
         (detectHarmonyAnomaly (initStateList "t0" 0)).toList ++
         (detectEmotionalAnomaly (initStateList "t0" 0)).toList ++
         ({ ttype := "pattern_anomaly", severity := "high" } ::
           (verifyStateIntegrityAnomaly (initStateList "t0" 0)).toList)) :=
  ⟨by decide, by decide,
   c8_pattern_detector_amended (initStateList "t0" 0) [0, 0, 0, 0, 0]
     (by decide) (by decide)⟩

/-- Well-formedness of an entry chain relative to an expected previous hash:
every entry's stored hash is the recomputed one, the first entry links to the
expected hash, and each later entry links to its predecessor's stored
hash. -/
def chainWellFormed (H : String → String) : String → List Entry → Prop
  | _, [] => True
  | ph, e :: tl =>
    e.entry_hash = H (canonicalEntry e) ∧ e.previous_hash = ph ∧
      chainWellFormed H e.entry_hash tl

/-- A well-formed tail produces no issues when walked with its predecessor. -/
theorem chainIssues_some_of_wf (H : String → String) :
    ∀ (l : List Entry) (p : Entry),
      chainWellFormed H p.entry_hash l → chainIssues H (some p) l = [] := by
  intro l
  induction l with
  | nil => intro p _; rfl
  | cons e tl ih =>
    intro p h
    obtain ⟨h1, h2, h3⟩ := h
    simp [chainIssues, entryIssues, linkIssues, h1, h2, ih e h3]

/-- A well-formed chain produces no issues. -/
theorem chainIssues_none_of_wf (H : String → String) (ph : String) (l : List Entry)
    (h : chainWellFormed H ph l) : chainIssues H none l = [] := by
  cases l with
  | nil => rfl
  | cons e tl =>
    obtain ⟨h1, _, h3⟩ := h
    simp [chainIssues, entryIssues, h1, chainIssues_some_of_wf H tl e h3]

/-- Invariant maintained by the logger: the in-memory chain head equals the
last entry's stored hash, and the entries are well-formed down from
`H("GENESIS_BLOCK")`. -/
def LoggerInv (H : String → String) (lg : Logger) : Prop :=
  (∃ e, lg.entries.getLast? = some e ∧ lg.last_hash = e.entry_hash) ∧
  chainWellFormed H (H "GENESIS_BLOCK") lg.entries

/-- The freshly initialized logger satisfies the invariant. -/
theorem initLogger_inv (H : String → String) (ts : String) :
    LoggerInv H (initLogger H ts) :=
  ⟨⟨_, rfl, rfl⟩, ⟨rfl, rfl, trivial⟩⟩

/-- Appending an entry whose links and hash are correct preserves
well-formedness. -/
theorem chainWellFormed_append (H : String → String) (e : Entry) :
    ∀ (l : List Entry) (ph : String) (p : Entry),
      chainWellFormed H ph l → l.getLast? = some p →
      e.previous_hash = p.entry_hash → e.entry_hash = H (canonicalEntry e) →
      chainWellFormed H ph (l ++ [e]) := by
  intro l
  induction l with
  | nil =>
    intro ph p _ hlast
    exact absurd hlast (by simp)
  | cons a tl ih =>
    intro ph p hwf hlast hprev hhash
    obtain ⟨h1, h2, h3⟩ := hwf
    cases tl with
    | nil =>
      have hpa : a = p := by simpa using hlast
      subst hpa
      exact ⟨h1, h2, hhash, hprev, trivial⟩
    | cons b tl2 =>
      have hlast2 : (b :: tl2).getLast? = some p := by simpa using hlast
      exact ⟨h1, h2, ih a.entry_hash p h3 hlast2 hprev hhash⟩

/-- Shape of one `log_event` append: one entry is appended, the chain head
becomes its stored hash, it links to the previous head, and its hash is the
recomputed one. -/
theorem logEvent_entries (H : String → String) (lg : Logger) (ev : Ev) :
    ∃ e, (log_event H lg ev).1.entries = lg.entries ++ [e] ∧
      (log_event H lg ev).1.last_hash = e.entry_hash ∧
      e.previous_hash = lg.last_hash ∧
      e.entry_hash = H (canonicalEntry e) :=
  ⟨_, rfl, rfl, rfl, rfl⟩

/-- One `log_event` append preserves the logger invariant. -/
theorem logEvent_inv (H : String → String) (lg : Logger) (ev : Ev)
    (h : LoggerInv H lg) : LoggerInv H (log_event H lg ev).1 := by
  obtain ⟨⟨p, hlast, hhash⟩, hwf⟩ := h
  obtain ⟨e, he, hl, hp, hh⟩ := logEvent_entries H lg ev
  constructor
  · refine ⟨e, ?_, hl⟩
    rw [he]
    exact List.getLast?_concat _
  · rw [he]
    exact chainWellFormed_append H e lg.entries _ p hwf hlast (hp.trans hhash) hh

/-- Every log built by a sequence of appends satisfies the invariant. -/
theorem buildLog_inv (H : String → String) (ts0 : String) (events : List Ev) :
    LoggerInv H (buildLog H ts0 events) := by
  unfold buildLog
  suffices h : ∀ (lg : Logger), LoggerInv H lg →
      LoggerInv H (events.foldl (fun lg ev => (log_event H lg ev).1) lg) from
    h _ (initLogger_inv H ts0)
  induction events with
  | nil => intro lg h; exact h
  | cons ev tl ih => intro lg h; exact ih _ (logEvent_inv H lg ev h)

/-- Each entry of a well-formed chain carries the recomputed hash. -/
theorem wf_hash_ok (H : String → String) :
    ∀ (l : List Entry) (ph : String), chainWellFormed H ph l →
      ∀ e ∈ l, e.entry_hash = H (canonicalEntry e) := by
  intro l
  induction l with
  | nil => intro ph _ e he; simp at he
  | cons a tl ih =>
    intro ph h e he
    obtain ⟨h1, _, h3⟩ := h
    rcases List.mem_cons.mp he with rfl | he2
    · exact h1
    · exact ih a.entry_hash h3 e he2

/-- Consecutive entries of a well-formed chain are linked by stored hashes. -/
theorem wf_chain_linked (H : String → String) :
    ∀ (l : List Entry) (ph : String), chainWellFormed H ph l →
      l.Chain' (fun a b => b.previous_hash = a.entry_hash) := by
  intro l
  induction l with
  | nil => intro ph _; exact List.chain'_nil
  | cons a tl ih =>
    intro ph h
    obtain ⟨_, _, h3⟩ := h
    rw [List.chain'_cons']
    refine ⟨?_, ih a.entry_hash h3⟩
    intro b hb
    cases tl with
    | nil => simp at hb
    | cons c tl2 =>
      have hbc : c = b := by simpa using hb
      subst hbc
      exact h3.2.1

/-- C2: verifying the chain of any log produced by `log_event` appends after
initialization reports "verified" with zero issues; moreover every entry's
stored hash is the hash of its canonical serialization without the
`entry_hash` field, consecutive entries are linked through `previous_hash`,
and the genesis entry links to `H("GENESIS_BLOCK")`. -/
theorem c2_verify_chain_of_appends (H : String → String) (ts0 : String)
    (events : List Ev) :
    verify_integrity_chain H (buildLog H ts0 events).entries = ("verified", []) ∧
    (∀ e ∈ (buildLog H ts0 events).entries, e.entry_hash = H (canonicalEntry e)) ∧
    (buildLog H ts0 events).entries.Chain' (fun a b => b.previous_hash = a.entry_hash) ∧
    (∃ g, (buildLog H ts0 events).entries.head? = some g ∧
      g.previous_hash = H "GENESIS_BLOCK") := by
  obtain ⟨⟨p, hlast, _⟩, hwf⟩ := buildLog_inv H ts0 events
  have hne : (buildLog H ts0 events).entries ≠ [] := by
    intro h0
    rw [h0] at hlast
    simp at hlast
  refine ⟨?_, wf_hash_ok H _ _ hwf, wf_chain_linked H _ _ hwf, ?_⟩
  · unfold verify_integrity_chain
    rw [if_neg hne, chainIssues_none_of_wf H _ _ hwf]
    simp
  · cases hE : (buildLog H ts0 events).entries with
    | nil => exact absurd hE hne
    | cons g tl =>
      rw [hE] at hwf
      exact ⟨g, by simp, hwf.2.1⟩

/-- In-place change of the `data` field of the entry at a given index,
modelling a tampering edit of that persisted line that leaves the line
parseable and all other fields (in particular the stored `entry_hash`)
intact. -/
def mutateEntryData : List Entry → ℕ → String → List Entry
  | [], _, _ => []
  | e :: tl, 0, d => { e with data := d } :: tl
  | e :: tl, Nat.succ i, d => e :: mutateEntryData tl i d

/-- The optional predecessor carried by the verification walk agrees with the
expected previous-hash parameter of well-formedness. -/
def prevOk : Option Entry → String → Prop
  | none, _ => True
  | some p, ph => p.entry_hash = ph

/-- Walking a well-formed chain whose entry at index `i` had its `data` field
changed (with the new content hashing differently than the stored hash)
collects exactly one issue: a `hash_mismatch` for that entry.  No
`chain_break` arises because the stored `entry_hash`, which the linkage check
of the next entry reads, is untouched. -/
theorem chainIssues_mutate (H : String → String) (d : String) :
    ∀ (l : List Entry) (ph : String) (prev : Option Entry) (i : ℕ) (e : Entry),
      chainWellFormed H ph l → prevOk prev ph → l[i]? = some e →
      H (canonicalEntry { e with data := d }) ≠ e.entry_hash →
      chainIssues H prev (mutateEntryData l i d)
        = [{ sequence := e.sequence, issue := "hash_mismatch" }] := by
  intro l
  induction l with
  | nil =>
    intro ph prev i e _ _ hget
    simp at hget
  | cons a tl ih =>
    intro ph prev i e hwf hpo hget hne
    obtain ⟨h1, h2, h3⟩ := hwf
    cases i with
    | zero =>
      have hea : a = e := by simpa using hget
      subst hea
      have hhash : entryIssues H { a with data := d }
          = [{ sequence := a.sequence, issue := "hash_mismatch" }] := by
        unfold entryIssues
        rw [if_neg (fun hc => hne hc.symm)]
      have htail : chainIssues H (some { a with data := d }) tl = [] :=
        chainIssues_some_of_wf H tl { a with data := d } h3
      cases prev with
      | none => simp [mutateEntryData, chainIssues, hhash, htail]
      | some p =>
        have hlink : linkIssues p { a with data := d } = [] := by
          unfold linkIssues
          rw [if_pos]
          show a.previous_hash = p.entry_hash
          rw [h2, hpo]

        simp [mutateEntryData, chainIssues, hhash, hlink, htail]
    | succ j =>
      have hget2 : tl[j]? = some e := by simpa using hget
      have htail : chainIssues H (some a) (mutateEntryData tl j d)
          = [{ sequence := e.sequence, issue := "hash_mismatch" }] :=
        ih a.entry_hash (some a) j e h3 rfl hget2 hne
      have hhash : entryIssues H a = [] := by
        unfold entryIssues
        rw [if_pos h1]
      cases prev with
      | none => simp [mutateEntryData, chainIssues, hhash, htail]
      | some p =>
        have hlink : linkIssues p a = [] := by
          unfold linkIssues
          rw [if_pos]
          rw [h2, hpo]
        simp [mutateEntryData, chainIssues, hhash, hlink, htail]

/-- Hash function of the C9 concrete scenario (stands in for SHA-256; it is
injective, so it cannot mask the mutation through a collision). -/
def c9HashFn : String → String := fun s => "#" ++ s

/-- Two appended events whose `data` payload is the JSON text `\x7b"a": 1\x7d`. -/
def c9Events : List Ev :=
  [{ ts := "t1", etype := "ev", data := "\x7b\"a\": 1\x7d", sec := "normal" },
   { ts := "t2", etype := "ev", data := "\x7b\"a\": 1\x7d", sec := "normal" }]

/-- The tampered payload: the persisted line of entry 1 with its single byte
`1` overwritten by `2`. -/
def c9MutatedData : String := "\x7b\"a\": 2\x7d"

/-- Entry at index 1 (the first appended event) of the C9 log. -/
def c9EntryOne : Entry :=
  ((buildLog c9HashFn "t0" c9Events).entries[1]?).getD
    { timestamp := "", etype := "", data := "", security_level := none,
      sequence := 0, previous_hash := "", entry_hash := "" }

set_option maxRecDepth 8192 in
/-- C9, counterexample: in a three-entry log (genesis plus two appends),
changing the single byte `1` to `2` inside the data payload of entry 1 —
an entry with a following entry — makes re-verification report exactly one
`hash_mismatch` and zero `chain_break` issues, not the one `chain_break` for
the following entry that the claim requires. -/
theorem c9_data_mutation_no_chain_break :
    (mutateEntryData (buildLog c9HashFn "t0" c9Events).entries 1 c9MutatedData).length
        = 3 ∧
    ((verify_integrity_chain c9HashFn
        (mutateEntryData (buildLog c9HashFn "t0" c9Events).entries 1 c9MutatedData)).2.filter
      (fun x => x.issue = "hash_mismatch")).length = 1 ∧
    ((verify_integrity_chain c9HashFn
        (mutateEntryData (buildLog c9HashFn "t0" c9Events).entries 1 c9MutatedData)).2.filter
      (fun x => x.issue = "chain_break")).length = 0 := by
  decide

/-- C9, amended: for a log produced by any sequence of appends, changing the
`data` field of any one persisted entry (the stored `entry_hash` field
untouched) so that the new content hashes differently, chain verification
reports "compromised" with exactly one issue: a `hash_mismatch` attributed to
the mutated entry.  No `chain_break` is reported, because the linkage check
compares the follower's `previous_hash` against the stored — unchanged —
`entry_hash`. -/
theorem c9_mutation_amended (H : String → String) (ts0 : String) (events : List Ev)
    (i : ℕ) (d : String) (e : Entry)
    (hget : (buildLog H ts0 events).entries[i]? = some e)
    (hne : H (canonicalEntry { e with data := d }) ≠ e.entry_hash) :
    verify_integrity_chain H (mutateEntryData (buildLog H ts0 events).entries i d)
      = ("compromised", [{ sequence := e.sequence, issue := "hash_mismatch" }]) := by
  obtain ⟨_, hwf⟩ := buildLog_inv H ts0 events
  have hissues := chainIssues_mutate H d (buildLog H ts0 events).entries
    (H "GENESIS_BLOCK") none i e hwf trivial hget hne
  have hne2 : mutateEntryData (buildLog H ts0 events).entries i d ≠ [] := by
    cases hE : (buildLog H ts0 events).entries with
    | nil =>
      rw [hE] at hget
      simp at hget
    | cons a tl =>
      cases i <;> simp [mutateEntryData]
  unfold verify_integrity_chain
  rw [if_neg hne2, hissues]
  simp

set_option maxRecDepth 8192 in
/-- Witness for `c9_mutation_amended` at the concrete C9 scenario. -/
theorem c9_mutation_amended_witness :
    (buildLog c9HashFn "t0" c9Events).entries[1]? = some c9EntryOne ∧
    c9HashFn (canonicalEntry { c9EntryOne with data := c9MutatedData })
      ≠ c9EntryOne.entry_hash ∧
    verify_integrity_chain c9HashFn
        (mutateEntryData (buildLog c9HashFn "t0" c9Events).entries 1 c9MutatedData)
      = ("compromised",
         [{ sequence := c9EntryOne.sequence, issue := "hash_mismatch" }]) :=
  ⟨by decide, by decide,
   c9_mutation_amended c9HashFn "t0" c9Events 1 c9MutatedData c9EntryOne
     (by decide) (by decide)⟩

end Euystacio
